import Mathlib

/-!
Verification of the geo-proximity and safety-scoring module of the
CaminoSeguro backend (Node.js/Express/PostgreSQL). The definitions below
are a shallow embedding of:

* `updateHeatZone` in the reports route file (classification of the free
  text incident type, find-or-create of a heat zone via a Haversine SQL
  predicate, intensity clamping);
* the `GET /api/stats/safety-score` handler (score fold, clamping, level
  thresholds, detail counters);
* the `POST /api/routes/calculate` handler (union fetch of zones within
  2 km of either endpoint, the JS Haversine distance via `Math.atan2`,
  the time estimate at 30 km/h).

Real-number coordinates are modelled by `ℝ` (the idealisation of the
IEEE-754 doubles used by JS and PostgreSQL); intensities and counters are
integers, as in the DDL.
-/

namespace CaminoSeguro

/-- The four zone types of the `heat_zones` DDL `CHECK (zone_type IN
('crime', 'accident', 'congestion', 'danger'))`. -/
inductive ZoneType where
  | crime
  | accident
  | congestion
  | danger
deriving DecidableEq, Repr

/-- A row of the `heat_zones` table: `id SERIAL`, coordinates, type,
`intensity INTEGER`, `incident_count INTEGER`, `last_incident_at`. -/
structure HeatZone where
  id : Nat
  latitude : ℝ
  longitude : ℝ
  zoneType : ZoneType
  intensity : ℤ
  incidentCount : ℤ
  lastIncidentAt : Nat

/-- Lowercasing of a single character as JS `toLowerCase` performs it,
restricted to ASCII plus the Spanish letters occurring in the
classification keywords (the JS function is full-Unicode; only these
characters matter to the keywords). -/
def jsCharLower (c : Char) : Char :=
  if 'A' ≤ c ∧ c ≤ 'Z' then Char.ofNat (c.toNat + 32)
  else if c = 'Á' then 'á'
  else if c = 'É' then 'é'
  else if c = 'Í' then 'í'
  else if c = 'Ó' then 'ó'
  else if c = 'Ú' then 'ú'
  else if c = 'Ñ' then 'ñ'
  else if c = 'Ü' then 'ü'
  else c

/-- JS `String.prototype.toLowerCase`, character by character. -/
def jsLower (s : String) : String :=
  String.mk (s.data.map jsCharLower)

/-- Whether the character list `s` starts with the character list `p`. -/
def charListStarts : List Char → List Char → Bool
  | _, [] => true
  | [], _ :: _ => false
  | c :: cs, p :: ps => c == p && charListStarts cs ps

/-- Whether the character list `p` occurs contiguously inside `s`. -/
def charListHas : List Char → List Char → Bool
  | [], p => p.isEmpty
  | s@(_ :: cs), p => charListStarts s p || charListHas cs p

/-- JS `String.prototype.includes`: substring containment. -/
def jsIncludes (s pat : String) : Bool :=
  charListHas s.data pat.data

/-- Classification of the free-text `incidentType` in `updateHeatZone`:
`let zoneType = 'danger'`, overridden in order by the
`toLowerCase().includes(...)` tests for "accidente", then
"robo"/"crimen", then "congestión"/"tráfico". -/
def classifyZone (incidentType : String) : ZoneType :=
  if jsIncludes (jsLower incidentType) "accidente" then ZoneType.accident
  else if jsIncludes (jsLower incidentType) "robo" || jsIncludes (jsLower incidentType) "crimen" then
    ZoneType.crime
  else if jsIncludes (jsLower incidentType) "congestión" || jsIncludes (jsLower incidentType) "tráfico" then
    ZoneType.congestion
  else ZoneType.danger

/-- The score fold shared by the stats handler and the route handler:
`let safetyScore = 100; rows.forEach(zone => safetyScore -= zone.intensity * 2);
safetyScore = Math.max(0, Math.min(100, safetyScore));`. -/
def computeSafetyScore (zones : List HeatZone) : ℤ :=
  max 0 (min 100 (zones.foldl (fun s z => s - z.intensity * 2) 100))

/-- The qualitative level of both handlers:
`safetyScore >= 80 ? 'high' : safetyScore >= 50 ? 'medium' : 'low'`. -/
def safetyLevel (s : ℤ) : String :=
  if s ≥ 80 then "high" else if s ≥ 50 then "medium" else "low"

/-- The `crimeZones` counter of the stats handler:
`if (zone.zone_type === 'crime') crimeZones++;`. -/
def crimeZones (zones : List HeatZone) : Nat :=
  zones.countP (fun z => decide (z.zoneType = ZoneType.crime))

/-- The `accidentZones` counter of the stats handler:
`if (zone.zone_type === 'accident') accidentZones++;`. -/
def accidentZones (zones : List HeatZone) : Nat :=
  zones.countP (fun z => decide (z.zoneType = ZoneType.accident))

/-- The `dangerZones` detail field of the stats handler and the
`dangerZones` field of the route handler: `rows.length` of the fetched
zone set, whatever the types of its zones. -/
def dangerZonesCount (zones : List HeatZone) : Nat :=
  zones.length

/-- PostgreSQL `radians(x)`: degrees to radians. -/
noncomputable def radians (x : ℝ) : ℝ :=
  x * Real.pi / 180

/-- The Haversine expression embedded in the SQL predicates
(`reports`, `heat_zones` and `help_points` queries):
`6371 * acos(cos(radians($lat)) * cos(radians(latitude)) *
cos(radians(longitude) - radians($lng)) + sin(radians($lat)) *
sin(radians(latitude)))`, with `(lat1, lng1)` the query point and
`(lat2, lng2)` the row. -/
noncomputable def sqlDistance (lat1 lng1 lat2 lng2 : ℝ) : ℝ :=
  6371 * Real.arccos
    (Real.cos (radians lat1) * Real.cos (radians lat2) *
      Real.cos (radians lng2 - radians lng1) +
     Real.sin (radians lat1) * Real.sin (radians lat2))

/-- JS `Math.atan2 y x` (signed zeroes aside, which `ℝ` does not have). -/
noncomputable def jsAtan2 (y x : ℝ) : ℝ :=
  if 0 < x then Real.arctan (y / x)
  else if x < 0 then
    (if 0 ≤ y then Real.arctan (y / x) + Real.pi else Real.arctan (y / x) - Real.pi)
  else
    (if 0 < y then Real.pi / 2 else if y < 0 then -(Real.pi / 2) else 0)

/-- The Haversine distance computed inline by the
`POST /api/routes/calculate` handler: `R = 6371`, `dLat`/`dLng` in
radians, `a = sin(dLat/2)^2 + cos(oLat)*cos(dLat)*sin(dLng/2)^2`,
`c = 2 * atan2(sqrt a, sqrt (1-a))`, distance `R * c`. -/
noncomputable def routeDistance (originLat originLng destinationLat destinationLng : ℝ) : ℝ :=
  let dLat := (destinationLat - originLat) * Real.pi / 180
  let dLng := (destinationLng - originLng) * Real.pi / 180
  let a := Real.sin (dLat / 2) * Real.sin (dLat / 2) +
    Real.cos (originLat * Real.pi / 180) * Real.cos (destinationLat * Real.pi / 180) *
      Real.sin (dLng / 2) * Real.sin (dLng / 2)
  let c := 2 * jsAtan2 (Real.sqrt a) (Real.sqrt (1 - a))
  6371 * c

/-- JS `Math.round`: nearest integer, half rounds up. -/
noncomputable def jsRound (x : ℝ) : ℤ :=
  ⌊x + 1 / 2⌋

/-- JS `parseFloat(x.toFixed(2))` for the nonnegative distances involved:
rounding to the nearest hundredth. -/
noncomputable def roundTo2 (x : ℝ) : ℝ :=
  (⌊x * 100 + 1 / 2⌋ : ℤ) / 100

/-- The `estimatedTime` of the route handler:
`Math.round((distance / 30) * 60)` on the raw Haversine distance. -/
noncomputable def estimatedTimeMin (originLat originLng destinationLat destinationLng : ℝ) : ℤ :=
  jsRound (routeDistance originLat originLng destinationLat destinationLng / 30 * 60)

/-- The `distanceKm` field of the route handler's response:
`parseFloat(distance.toFixed(2))`. -/
noncomputable def distanceKmOut (originLat originLng destinationLat destinationLng : ℝ) : ℝ :=
  roundTo2 (routeDistance originLat originLng destinationLat destinationLng)

open Classical in
/-- The `heat_zones` fetch of the route handler: all rows whose SQL
Haversine distance to the origin is at most 2 km, or to the destination
is at most 2 km — one `WHERE ... OR ...` scan, so each row occurs at
most once in the result. -/
noncomputable def zonesForRoute (store : List HeatZone)
    (originLat originLng destinationLat destinationLng : ℝ) : List HeatZone :=
  store.filter fun z =>
    decide (sqlDistance originLat originLng z.latitude z.longitude ≤ 2 ∨
            sqlDistance destinationLat destinationLng z.latitude z.longitude ≤ 2)

open Classical in
/-- The body of `updateHeatZone` (the happy path, without the
`try/catch`): classify the incident, `SELECT` a zone of that type within
0.1 km (the JS reads `rows[0]`, hence `find?`), and either `UPDATE` it
(`incident_count = incident_count + 1`, `intensity = min(10, intensity + 1)`
computed from the selected row, `last_incident_at = now`) or `INSERT` a
fresh zone with `intensity = 1` (DDL defaults `incident_count 1`,
`last_incident_at now`). -/
noncomputable def updateHeatZone (store : List HeatZone)
    (latitude longitude : ℝ) (incidentType : String) (now : Nat) : List HeatZone :=
  let zoneType := classifyZone incidentType
  match store.find? (fun z =>
      decide (z.zoneType = zoneType) &&
      decide (sqlDistance latitude longitude z.latitude z.longitude ≤ 0.1)) with
  | some zone =>
      let newIntensity := min 10 (zone.intensity + 1)
      store.map fun w =>
        if w.id = zone.id then
          { w with intensity := newIntensity, incidentCount := w.incidentCount + 1,
                   lastIncidentAt := now }
        else w
  | none =>
      store ++ [{ id := store.length, latitude := latitude, longitude := longitude,
                  zoneType := zoneType, intensity := 1, incidentCount := 1,
                  lastIncidentAt := now }]

/-- Recording `n` consecutive incidents at the same point with the same
label, one `updateHeatZone` call per created report, the k-th at time k. -/
noncomputable def recordN (latitude longitude : ℝ) (incidentType : String) :
    Nat → List HeatZone
  | 0 => []
  | n + 1 => updateHeatZone (recordN latitude longitude incidentType n)
      latitude longitude incidentType n

/-- A row of the `reports` table, restricted to the fields the heat-zone
module consumes. -/
structure Report where
  latitude : ℝ
  longitude : ℝ
  incidentType : String

/-- The store interaction of `updateHeatZone` with its possible failure:
`storeFails = true` models any of its awaited queries throwing (the
rejected promise), in which case no row was changed; otherwise the body
runs as `updateHeatZone`. -/
noncomputable def updateHeatZoneTry (storeFails : Bool) (store : List HeatZone)
    (latitude longitude : ℝ) (incidentType : String) (now : Nat) :
    Except String (List HeatZone) :=
  if storeFails then Except.error "store access failed"
  else Except.ok (updateHeatZone store latitude longitude incidentType now)

/-- The whole of `updateHeatZone` including its own `try/catch`: a store
failure is caught, logged with `console.error`, and swallowed — the
function returns normally with the zones unchanged. -/
noncomputable def updateHeatZoneCaught (storeFails : Bool) (store : List HeatZone)
    (latitude longitude : ℝ) (incidentType : String) (now : Nat) : List HeatZone :=
  match updateHeatZoneTry storeFails store latitude longitude incidentType now with
  | Except.ok store' => store'
  | Except.error _ => store

/-- The body of the `POST /api/reports` handler after validation: the
`INSERT INTO reports` (which may itself fail, `reportInsertFails`),
then `await updateHeatZone(...)`, then `res.status(201)`. -/
noncomputable def postReportBody (reportInsertFails zoneStoreFails : Bool)
    (reports : List Report) (store : List HeatZone)
    (latitude longitude : ℝ) (incidentType : String) (now : Nat) :
    Except String (Nat × List Report × List HeatZone) := do
  let reports' ←
    if reportInsertFails then Except.error "insert failed"
    else Except.ok (reports ++ [⟨latitude, longitude, incidentType⟩])
  let store' := updateHeatZoneCaught zoneStoreFails store latitude longitude incidentType now
  Except.ok (201, reports', store')

/-- The `POST /api/reports` handler with its outer `try/catch`: an
uncaught error yields `res.status(500)` and leaves the stores as they
were. -/
noncomputable def postReport (reportInsertFails zoneStoreFails : Bool)
    (reports : List Report) (store : List HeatZone)
    (latitude longitude : ℝ) (incidentType : String) (now : Nat) :
    Nat × List Report × List HeatZone :=
  match postReportBody reportInsertFails zoneStoreFails reports store
      latitude longitude incidentType now with
  | Except.ok r => r
  | Except.error _ => (500, reports, store)

/-- Per-zone invariant of the `heat_zones` DDL:
`intensity INTEGER DEFAULT 1 CHECK (intensity >= 1 AND intensity <= 10)`
and `incident_count INTEGER DEFAULT 1` kept at least 1. -/
def ZoneInv (z : HeatZone) : Prop :=
  1 ≤ z.intensity ∧ z.intensity ≤ 10 ∧ 1 ≤ z.incidentCount

/-- The invariant over a whole store of zones. -/
def StoreInv (store : List HeatZone) : Prop :=
  ∀ z ∈ store, ZoneInv z

lemma foldl_sub_intensity (zones : List HeatZone) :
    ∀ s : ℤ, zones.foldl (fun s z => s - z.intensity * 2) s =
      s - 2 * (zones.map HeatZone.intensity).sum := by
  induction zones with
  | nil => intro s; simp
  | cons z zs ih =>
    intro s
    simp only [List.foldl_cons, List.map_cons, List.sum_cons, ih]
    ring

lemma computeSafetyScore_eq_clamp (zones : List HeatZone) :
    computeSafetyScore zones =
      max 0 (min 100 (100 - 2 * (zones.map HeatZone.intensity).sum)) := by
  simp [computeSafetyScore, foldl_sub_intensity]

/-- C1. The safety-score fold of both handlers equals
clamp(100 - 2 * S, 0, 100) where S is the sum of the fetched zone
intensities, and is therefore invariant under reordering of the fetched
rows. -/
theorem safety_score_clamped_and_order_free (zones : List HeatZone) :
    computeSafetyScore zones =
      max 0 (min 100 (100 - 2 * (zones.map HeatZone.intensity).sum)) ∧
    ∀ zones' : List HeatZone, zones.Perm zones' →
      computeSafetyScore zones = computeSafetyScore zones' := by
  refine ⟨computeSafetyScore_eq_clamp zones, ?_⟩
  intro zones' h
  rw [computeSafetyScore_eq_clamp, computeSafetyScore_eq_clamp,
    (h.map HeatZone.intensity).sum_eq]

/-- The accident intensity-6 zone of the spec's worked scenario. -/
def zoneAcc6 : HeatZone :=
  { id := 1, latitude := 0, longitude := 0, zoneType := ZoneType.accident,
    intensity := 6, incidentCount := 1, lastIncidentAt := 0 }

/-- The crime intensity-3 zone of the spec's worked scenario. -/
def zoneCrime3 : HeatZone :=
  { id := 2, latitude := 0, longitude := 0, zoneType := ZoneType.crime,
    intensity := 3, incidentCount := 1, lastIncidentAt := 0 }

/-- Witness for C1: the two-zone scenario scored in either order. -/
theorem safety_score_clamped_and_order_free_witness :
    computeSafetyScore [zoneCrime3, zoneAcc6] = computeSafetyScore [zoneAcc6, zoneCrime3] :=
  (safety_score_clamped_and_order_free [zoneCrime3, zoneAcc6]).2
    [zoneAcc6, zoneCrime3] (List.Perm.swap zoneAcc6 zoneCrime3 [])

/-- C5. The qualitative level is a pure function of the score with the
fixed thresholds of both handlers, and with zero fetched zones the score
is 100 and the level "high". -/
theorem safety_level_thresholds :
    (∀ s : ℤ, 80 ≤ s → safetyLevel s = "high") ∧
    (∀ s : ℤ, 50 ≤ s → s < 80 → safetyLevel s = "medium") ∧
    (∀ s : ℤ, s < 50 → safetyLevel s = "low") ∧
    computeSafetyScore [] = 100 ∧
    safetyLevel (computeSafetyScore []) = "high" := by
  refine ⟨?_, ?_, ?_, by decide, by decide⟩
  · intro s h
    simp [safetyLevel, h]
  · intro s h1 h2
    rw [safetyLevel, if_neg (by omega), if_pos (by omega)]
  · intro s h
    rw [safetyLevel, if_neg (by omega), if_neg (by omega)]

/-- Witness for C5: one score in each band. -/
theorem safety_level_thresholds_witness :
    safetyLevel 95 = "high" ∧ safetyLevel 60 = "medium" ∧ safetyLevel 10 = "low" :=
  ⟨safety_level_thresholds.1 95 (by decide),
   safety_level_thresholds.2.1 60 (by decide) (by decide),
   safety_level_thresholds.2.2.1 10 (by decide)⟩

/-- C10. The `dangerZones` field counts every fetched zone — it is the
sum of the per-type counts over all four zone types, not a count of
type-`danger` zones; only `crimeZones` and `accidentZones` filter by
type, as the one-crime-zone instance shows. -/
theorem danger_zone_count_spans_all_types :
    (∀ zones : List HeatZone,
      dangerZonesCount zones =
        crimeZones zones + accidentZones zones +
        zones.countP (fun z => decide (z.zoneType = ZoneType.congestion)) +
        zones.countP (fun z => decide (z.zoneType = ZoneType.danger))) ∧
    dangerZonesCount [zoneCrime3] = 1 ∧
    crimeZones [zoneCrime3] = 1 ∧
    accidentZones [zoneCrime3] = 0 ∧
    zoneCrime3.zoneType ≠ ZoneType.danger := by
  refine ⟨?_, by decide, by decide, by decide, by decide⟩
  intro zones
  induction zones with
  | nil => simp [dangerZonesCount, crimeZones, accidentZones]
  | cons z zs ih =>
    simp only [dangerZonesCount, crimeZones, accidentZones, List.length_cons,
      List.countP_cons] at *
    cases h : z.zoneType <;> simp [h] <;> omega

/-- C3. The zone-type classification is a case-insensitive substring
match in the fixed priority order of `updateHeatZone` — "accidente"
first, then "robo"/"crimen", then "congestión"/"tráfico", else
`danger` — with first match winning, and the spec's four example labels
classify accordingly. -/
theorem classification_fixed_priority :
    (∀ l : String, jsIncludes (jsLower l) "accidente" = true →
      classifyZone l = ZoneType.accident) ∧
    (∀ l : String, jsIncludes (jsLower l) "accidente" = false →
      (jsIncludes (jsLower l) "robo" = true ∨ jsIncludes (jsLower l) "crimen" = true) →
      classifyZone l = ZoneType.crime) ∧
    (∀ l : String, jsIncludes (jsLower l) "accidente" = false →
      jsIncludes (jsLower l) "robo" = false → jsIncludes (jsLower l) "crimen" = false →
      (jsIncludes (jsLower l) "congestión" = true ∨ jsIncludes (jsLower l) "tráfico" = true) →
      classifyZone l = ZoneType.congestion) ∧
    (∀ l : String, jsIncludes (jsLower l) "accidente" = false →
      jsIncludes (jsLower l) "robo" = false → jsIncludes (jsLower l) "crimen" = false →
      jsIncludes (jsLower l) "congestión" = false → jsIncludes (jsLower l) "tráfico" = false →
      classifyZone l = ZoneType.danger) ∧
    classifyZone "Accidente de tránsito" = ZoneType.accident ∧
    classifyZone "Robo a mano armada" = ZoneType.crime ∧
    classifyZone "Congestión vehicular" = ZoneType.congestion ∧
    classifyZone "Poste caído" = ZoneType.danger := by
  refine ⟨?_, ?_, ?_, ?_, by decide, by decide, by decide, by decide⟩
  · intro l h
    simp [classifyZone, h]
  · intro l ha h
    rcases h with h | h <;> simp [classifyZone, ha, h]
  · intro l ha hr hc h
    rcases h with h | h <;> simp [classifyZone, ha, hr, hc, h]
  · intro l ha hr hc hg ht
    simp [classifyZone, ha, hr, hc, hg, ht]

/-- Witness for C3: one representative label per priority branch. -/
theorem classification_fixed_priority_witness :
    classifyZone "zona con accidente" = ZoneType.accident ∧
    classifyZone "hubo un robo" = ZoneType.crime ∧
    classifyZone "mucho tráfico" = ZoneType.congestion ∧
    classifyZone "zona oscura" = ZoneType.danger :=
  ⟨classification_fixed_priority.1 "zona con accidente" (by decide),
   classification_fixed_priority.2.1 "hubo un robo" (by decide) (Or.inl (by decide)),
   classification_fixed_priority.2.2.1 "mucho tráfico" (by decide) (by decide) (by decide)
     (Or.inr (by decide)),
   classification_fixed_priority.2.2.2.1 "zona oscura" (by decide) (by decide) (by decide)
     (by decide) (by decide)⟩

lemma routeDistance_self (lat lng : ℝ) : routeDistance lat lng lat lng = 0 := by
  have h0 : (lat - lat) * Real.pi / 180 = 0 := by ring
  have h1 : (lng - lng) * Real.pi / 180 = 0 := by ring
  simp only [routeDistance, h0, h1]
  norm_num [Real.sqrt_one, jsAtan2, Real.arctan_zero]

lemma routeDistance_comm (aLat aLng bLat bLng : ℝ) :
    routeDistance aLat aLng bLat bLng = routeDistance bLat bLng aLat aLng := by
  have hLat : (aLat - bLat) * Real.pi / 180 / 2 = -((bLat - aLat) * Real.pi / 180 / 2) := by
    ring
  have hLng : (aLng - bLng) * Real.pi / 180 / 2 = -((bLng - aLng) * Real.pi / 180 / 2) := by
    ring
  simp only [routeDistance, hLat, hLng, Real.sin_neg]
  ring_nf

lemma sqlDistance_self (lat lng : ℝ) : sqlDistance lat lng lat lng = 0 := by
  have key : Real.cos (radians lat) * Real.cos (radians lat) *
      Real.cos (radians lng - radians lng) +
      Real.sin (radians lat) * Real.sin (radians lat) = 1 := by
    rw [sub_self, Real.cos_zero, mul_one]
    linear_combination Real.sin_sq_add_cos_sq (radians lat)
  rw [sqlDistance, key, Real.arccos_one, mul_zero]

/-- C7. The route handler's Haversine (radius 6371 km) is symmetric in
its two endpoints and zero on identical endpoints. -/
theorem distance_symmetric_zero_diagonal :
    (∀ aLat aLng bLat bLng : ℝ,
      routeDistance aLat aLng bLat bLng = routeDistance bLat bLng aLat aLng) ∧
    (∀ lat lng : ℝ, routeDistance lat lng lat lng = 0) :=
  ⟨routeDistance_comm, routeDistance_self⟩

/-- C6. The time estimate is `Math.round((distance / 30) * 60)` on the
Haversine distance (30 km/h assumed speed), and for identical endpoints
both the reported two-decimal distance and the estimated minutes are 0. -/
theorem estimated_time_from_distance :
    (∀ originLat originLng destinationLat destinationLng : ℝ,
      estimatedTimeMin originLat originLng destinationLat destinationLng =
        jsRound (routeDistance originLat originLng destinationLat destinationLng / 30 * 60)) ∧
    (∀ lat lng : ℝ,
      distanceKmOut lat lng lat lng = 0 ∧ estimatedTimeMin lat lng lat lng = 0) := by
  refine ⟨fun _ _ _ _ => rfl, ?_⟩
  intro lat lng
  constructor
  · rw [distanceKmOut, routeDistance_self]
    norm_num [roundTo2]
  · rw [estimatedTimeMin, routeDistance_self]
    norm_num [jsRound]

/-- C9. The fetched route zone set is the subset of stored zones within
2 km of origin or destination: it is a sublist of the store (no row is
duplicated, so a zone near both endpoints is penalised once), its
membership is exactly the union condition, and the score over it is the
clamped sum with one penalty per fetched row. -/
theorem route_zones_union_no_double_count
    (store : List HeatZone) (originLat originLng destinationLat destinationLng : ℝ) :
    (zonesForRoute store originLat originLng destinationLat destinationLng).Sublist store ∧
    (∀ z : HeatZone,
      z ∈ zonesForRoute store originLat originLng destinationLat destinationLng ↔
      z ∈ store ∧ (sqlDistance originLat originLng z.latitude z.longitude ≤ 2 ∨
                   sqlDistance destinationLat destinationLng z.latitude z.longitude ≤ 2)) ∧
    computeSafetyScore (zonesForRoute store originLat originLng destinationLat destinationLng) =
      max 0 (min 100 (100 - 2 *
        ((zonesForRoute store originLat originLng destinationLat destinationLng).map
          HeatZone.intensity).sum)) := by
  refine ⟨List.filter_sublist store, ?_, computeSafetyScore_eq_clamp _⟩
  intro z
  simp [zonesForRoute, List.mem_filter]

lemma recordN_succ (lat lng : ℝ) (label : String) (n : Nat) :
    recordN lat lng label (n + 1) =
      updateHeatZone (recordN lat lng label n) lat lng label n := rfl

lemma updateHeatZone_nil (lat lng : ℝ) (label : String) (now : Nat) :
    updateHeatZone [] lat lng label now =
      [{ id := 0, latitude := lat, longitude := lng, zoneType := classifyZone label,
         intensity := 1, incidentCount := 1, lastIncidentAt := now }] := by
  simp [updateHeatZone]

lemma updateHeatZone_singleton_same (z : HeatZone) (lat lng : ℝ) (label : String)
    (now : Nat) (hlat : z.latitude = lat) (hlng : z.longitude = lng)
    (hzt : z.zoneType = classifyZone label) :
    updateHeatZone [z] lat lng label now =
      [{ z with intensity := min 10 (z.intensity + 1),
                incidentCount := z.incidentCount + 1, lastIncidentAt := now }] := by
  have hd : sqlDistance lat lng z.latitude z.longitude ≤ 0.1 := by
    rw [hlat, hlng, sqlDistance_self]
    norm_num
  have hp : (decide (z.zoneType = classifyZone label) &&
      decide (sqlDistance lat lng z.latitude z.longitude ≤ 0.1)) = true := by
    rw [decide_eq_true hzt, decide_eq_true hd]
    rfl
  have hfind : List.find? (fun w =>
      decide (w.zoneType = classifyZone label) &&
      decide (sqlDistance lat lng w.latitude w.longitude ≤ 0.1)) [z] = some z :=
    List.find?_cons_of_pos _ hp
  simp only [updateHeatZone]
  rw [hfind]
  simp

lemma recordN_same_point (lat lng : ℝ) (label : String) (n : Nat) :
    recordN lat lng label (n + 1) =
      [{ id := 0, latitude := lat, longitude := lng, zoneType := classifyZone label,
         intensity := min 10 ((n : ℤ) + 1), incidentCount := (n : ℤ) + 1,
         lastIncidentAt := n }] := by
  induction n with
  | zero =>
    rw [recordN_succ]
    show updateHeatZone [] lat lng label 0 = _
    rw [updateHeatZone_nil]
    norm_num
  | succ m ih =>
    rw [recordN_succ, ih, updateHeatZone_singleton_same _ _ _ _ _ rfl rfl rfl]
    simp only [List.cons.injEq, and_true, HeatZone.mk.injEq, true_and]
    refine ⟨?_, by push_cast; ring⟩
    push_cast
    omega

/-- C2. Starting from no zones, eleven incidents with the same label at
the same point produce exactly one zone, created with intensity 1 and
count 1 by the first incident, then bumped by each of the other ten to
count 11 and intensity clamped at 10. -/
theorem eleven_incidents_single_clamped_zone (lat lng : ℝ) (label : String) :
    recordN lat lng label 11 =
      [{ id := 0, latitude := lat, longitude := lng, zoneType := classifyZone label,
         intensity := 10, incidentCount := 11, lastIncidentAt := 10 }] ∧
    recordN lat lng label 1 =
      [{ id := 0, latitude := lat, longitude := lng, zoneType := classifyZone label,
         intensity := 1, incidentCount := 1, lastIncidentAt := 0 }] := by
  constructor
  · rw [show (11 : Nat) = 10 + 1 from rfl, recordN_same_point]
    norm_num [min_def]
  · rw [show (1 : Nat) = 0 + 1 from rfl, recordN_same_point]
    norm_num [min_def]

lemma updateHeatZone_of_find_none (store : List HeatZone) (lat lng : ℝ)
    (label : String) (now : Nat)
    (h : store.find? (fun w =>
      decide (w.zoneType = classifyZone label) &&
      decide (sqlDistance lat lng w.latitude w.longitude ≤ 0.1)) = none) :
    updateHeatZone store lat lng label now =
      store ++ [HeatZone.mk store.length lat lng (classifyZone label) 1 1 now] := by
  simp only [updateHeatZone]
  rw [h]

lemma updateHeatZone_of_find_some (store : List HeatZone) (lat lng : ℝ)
    (label : String) (now : Nat) (zone : HeatZone)
    (h : store.find? (fun w =>
      decide (w.zoneType = classifyZone label) &&
      decide (sqlDistance lat lng w.latitude w.longitude ≤ 0.1)) = some zone) :
    updateHeatZone store lat lng label now =
      store.map (fun w =>
        if w.id = zone.id then
          { w with intensity := min 10 (zone.intensity + 1),
                   incidentCount := w.incidentCount + 1, lastIncidentAt := now }
        else w) := by
  simp only [updateHeatZone]
  rw [h]

/-- C8. `updateHeatZone` preserves the zone invariant — intensity an
integer in [1,10], incidentCount at least 1 — and maps every existing
zone to a zone with the same id and an incidentCount that has not
decreased; the insert branch starts new zones at intensity 1, count 1. -/
theorem heat_zone_invariant_preserved (store : List HeatZone) (lat lng : ℝ)
    (label : String) (now : Nat) (hinv : StoreInv store) :
    StoreInv (updateHeatZone store lat lng label now) ∧
    ∀ z ∈ store, ∃ z' ∈ updateHeatZone store lat lng label now,
      z'.id = z.id ∧ z.incidentCount ≤ z'.incidentCount := by
  rcases hfind : store.find? (fun w =>
      decide (w.zoneType = classifyZone label) &&
      decide (sqlDistance lat lng w.latitude w.longitude ≤ 0.1)) with _ | zone
  · rw [updateHeatZone_of_find_none store lat lng label now hfind]
    constructor
    · intro z hz
      rcases List.mem_append.mp hz with h | h
      · exact hinv z h
      · have hz' : z = HeatZone.mk store.length lat lng (classifyZone label) 1 1 now := by
          simpa using h
        subst hz'
        exact ⟨by norm_num, by norm_num, by norm_num⟩
    · intro z hz
      exact ⟨z, List.mem_append_left _ hz, rfl, le_refl _⟩
  · rw [updateHeatZone_of_find_some store lat lng label now zone hfind]
    have hzone : zone ∈ store := List.mem_of_find?_eq_some hfind
    obtain ⟨h1, h2, h3⟩ := hinv zone hzone
    constructor
    · intro z' hz'
      rcases List.mem_map.mp hz' with ⟨w, hw, rfl⟩
      obtain ⟨g1, g2, g3⟩ := hinv w hw
      by_cases hid : w.id = zone.id <;>
        refine ⟨?_, ?_, ?_⟩ <;> simp [hid] <;> omega
    · intro z hz
      refine ⟨_, List.mem_map_of_mem _ hz, ?_, ?_⟩ <;>
        by_cases hid : z.id = zone.id <;> simp [hid]

/-- Witness for C8: the invariant holds after one update of the empty
store. -/
theorem heat_zone_invariant_preserved_witness :
    StoreInv (updateHeatZone [] 0 0 "robo" 0) :=
  (heat_zone_invariant_preserved [] 0 0 "robo" 0 (by simp [StoreInv])).1

/-- C4. With the report insertion succeeding, the `POST /api/reports`
handler returns 201 and the inserted report for any outcome of the
heat-zone accumulation, and an accumulation store failure is swallowed
by the inner catch, leaving the zones unchanged. -/
theorem report_creation_survives_zone_failure (zoneStoreFails : Bool)
    (reports : List Report) (store : List HeatZone) (lat lng : ℝ)
    (t : String) (now : Nat) :
    postReport false zoneStoreFails reports store lat lng t now =
      (201, reports ++ [{ latitude := lat, longitude := lng, incidentType := t }],
        updateHeatZoneCaught zoneStoreFails store lat lng t now) ∧
    updateHeatZoneCaught true store lat lng t now = store := by
  exact ⟨rfl, rfl⟩

end CaminoSeguro

